import Mathlib

/- Verification of the gluon distribution machinery of the SOLO
   (oneloopcalc) repository: the saturation scale converter, the GBW
   closed form model, the grid based momentum space evaluation of
   AbstractPositionGluonDistribution, the file backed distribution,
   the tracing wrapper, the ResultsCalculator driver and the Context
   kinematics check.  C++ double values are modelled as real numbers;
   C++ exceptions are modelled with Except.  The implementation file
   gluondist.cpp is not part of the repository snapshot, only its
   header gluondist.h with the class declarations and documentation
   comments; definitions whose bodies live in that missing file are
   modelled from the specification and are marked as such in their
   doc comments. -/

/-- The saturation scale converter declared in gluondist.h lines 29 to 51,
holding the precomputed product Q02x0lambda and the exponent lambda. -/
structure SaturationScale where
  Q02x0lambda : ℝ
  lambda : ℝ

namespace SaturationScale

/-- Modelled from the spec: the body of SaturationScale::xY is in the
missing gluondist.cpp.  Section 2 of the spec describes xY and Yx as
mutually inverse conversions between the rapidity like variable Y and the
momentum fraction x in (0,1]; the relation x = exp (-Y) realises this. -/
noncomputable def xY (_s : SaturationScale) (Y : ℝ) : ℝ := Real.exp (-Y)

/-- Modelled from the spec: the body of SaturationScale::Yx is in the
missing gluondist.cpp.  The inverse conversion, Y = -ln x. -/
noncomputable def Yx (_s : SaturationScale) (x : ℝ) : ℝ := -Real.log x

/-- Modelled from the spec: the body of SaturationScale::Qs2x is in the
missing gluondist.cpp.  Section 3 of the spec gives the power law
Qs2x x = Q02x0lambda * x ^ (-lambda). -/
noncomputable def Qs2x (s : SaturationScale) (x : ℝ) : ℝ :=
  s.Q02x0lambda * x ^ (-s.lambda)

/-- Modelled from the spec: the body of SaturationScale::Qs2Y is in the
missing gluondist.cpp.  The scale as a function of Y is obtained through
the conversion from Y to x, which is what makes the two routes to the
scale agree. -/
noncomputable def Qs2Y (s : SaturationScale) (Y : ℝ) : ℝ := s.Qs2x (s.xY Y)

end SaturationScale

/-- The GBW dipole distribution.  Modelled from the spec and from the
documentation comment in gluondist.h lines 95 to 99, which gives the
closed form exp (-r2 Qs2 / 4); the body is in the missing gluondist.cpp. -/
noncomputable def gbwS2 (sat : SaturationScale) (r2 Y : ℝ) : ℝ :=
  Real.exp (-(r2 * sat.Qs2Y Y) / 4)

/-- The GBW quadrupole distribution.  Modelled from the spec and from the
documentation comment in gluondist.h lines 100 to 106, which gives the
closed form exp (-s2 Qs2 / 4) exp (-t2 Qs2 / 4); the r2 argument does not
appear in the formula.  The body is in the missing gluondist.cpp. -/
noncomputable def gbwS4 (sat : SaturationScale) (r2 s2 t2 Y : ℝ) : ℝ :=
  Real.exp (-(s2 * sat.Qs2Y Y) / 4) * Real.exp (-(t2 * sat.Qs2Y Y) / 4)

/-- The GBW momentum space distribution.  Modelled from the spec and from
the documentation comment in gluondist.h lines 107 to 111, which gives the
closed form exp (-q2 / Qs2) / (pi Qs2); the body is in the missing
gluondist.cpp. -/
noncomputable def gbwF (sat : SaturationScale) (q2 Y : ℝ) : ℝ :=
  Real.exp (-q2 / sat.Qs2Y Y) / (Real.pi * sat.Qs2Y Y)

/-- The default quadrupole of AbstractPositionGluonDistribution.  Modelled
from the spec and from the documentation comment in gluondist.h lines 159
to 165: the product of two dipole values S2 s2 Y * S2 t2 Y computed with
the S2 supplied by the subclass; the r2 argument does not appear. -/
def apgdS4 (S2 : ℝ → ℝ → ℝ) (r2 s2 t2 Y : ℝ) : ℝ := S2 s2 Y * S2 t2 Y

/-- A concrete saturation scale used to instantiate the theorems with
hypotheses at a specific input. -/
def satEx : SaturationScale := ⟨2, 1⟩

/-- Modelled from the spec: the lookup step of the GSL interpolation
accelerator used by the missing gluondist.cpp.  Given the ordered axis
values it returns the index i of the interval with values i and i + 1
bracketing x, clamped to the valid interval indices; this is the value
the accelerator stores as its last lookup position (spec section 3,
a monotonic last lookup position cache). -/
noncomputable def accelFind : List ℝ → ℝ → ℕ
  | [], _ => 0
  | [_], _ => 0
  | _ :: b :: rest, x => if x < b then 0 else accelFind (b :: rest) x + 1

/-- Linear interpolation through the two points (x0, y0) and (x1, y1),
evaluated at x. -/
noncomputable def lin (x0 x1 y0 y1 x : ℝ) : ℝ :=
  y0 + (y1 - y0) * (x - x0) / (x1 - x0)

/-- Modelled from the spec: a one dimensional interpolation evaluation on
an axis xs with values ys at the point x, using the bracketing interval
located by accelFind.  The spec does not fix the interpolation kind; the
claims proved below do not depend on the interpolation formula, only on
which tables it reads, so piecewise linear interpolation is used. -/
noncomputable def interp_eval (xs ys : List ℝ) (x : ℝ) : ℝ :=
  let i := accelFind xs x
  lin (xs.getD i 0) (xs.getD (i + 1) 0) (ys.getD i 0) (ys.getD (i + 1) 0) x

/-- Modelled from the spec: a two dimensional interpolation evaluation on
axes xs (fast axis) and ys (slow axis) with the row major value table zs,
at the point (x, y); bilinear on the grid cell located by accelFind on
each axis. -/
noncomputable def interp2d_eval (xs ys zs : List ℝ) (x y : ℝ) : ℝ :=
  let i := accelFind xs x
  let j := accelFind ys y
  let z00 := zs.getD (j * xs.length + i) 0
  let z10 := zs.getD (j * xs.length + i + 1) 0
  let z01 := zs.getD ((j + 1) * xs.length + i) 0
  let z11 := zs.getD ((j + 1) * xs.length + i + 1) 0
  lin (ys.getD j 0) (ys.getD (j + 1) 0)
    (lin (xs.getD i 0) (xs.getD (i + 1) 0) z00 z10 x)
    (lin (xs.getD i 0) (xs.getD (i + 1) 0) z01 z11 x) y

/-- The state of an AbstractPositionGluonDistribution after setup, with
the fields of gluondist.h lines 185 to 214: the grid boundaries, the
axis value arrays, the series coefficient tables, the momentum space
value grid, and the two interpolation accelerator caches (q2_accel and
Y_accel in the header), modelled by the index each one stores. -/
structure APGD where
  q2min : ℝ
  q2max : ℝ
  Ymin : ℝ
  Ymax : ℝ
  log_q2_values : List ℝ
  Y_values : List ℝ
  F_dist_leading_q2 : List ℝ
  F_dist_subleading_q2 : List ℝ
  F_dist : List ℝ
  q2_accel : ℕ
  Y_accel : ℕ

namespace APGD

/-- Modelled from the spec: the scale axis built by setup covers the
range from Ymin to Ymax with n points, and has dimension 1 when
Ymin = Ymax (spec section 4.3 step 1). -/
noncomputable def mkYvalues (n : ℕ) (Ymin Ymax : ℝ) : List ℝ :=
  if Ymin = Ymax then [Ymin]
  else (List.range n).map (fun i => Ymin + (Ymax - Ymin) * i / (n - 1))

/-- Modelled from the spec: a series coefficient interpolated along the
scale axis (spec section 3, SeriesCoefficients).  With a single point on
the scale axis there is nothing to interpolate and the single stored
value is used; otherwise the coefficient table is interpolated in Y. -/
noncomputable def interp_coef (g : APGD) (ys : List ℝ) (Y : ℝ) : ℝ :=
  if g.Y_values.length ≤ 1 then ys.headD 0 else interp_eval g.Y_values ys Y

/-- Modelled from the spec: the body of
AbstractPositionGluonDistribution::F is in the missing gluondist.cpp.
Following spec section 4.3: for q2 below q2min the value is
leading Y + subleading Y * q2 from the interpolated series coefficients;
otherwise the grid is interpolated at (ln q2, Y), through the one
dimensional path when the scale axis has a single value and through the
two dimensional path otherwise.  The returned pair carries the value and
the state after the query; an interpolation evaluation stores the located
interval index in the accelerator cache of each axis it used. -/
noncomputable def F (g : APGD) (q2 Y : ℝ) : ℝ × APGD :=
  if q2 < g.q2min then
    (g.interp_coef g.F_dist_leading_q2 Y + g.interp_coef g.F_dist_subleading_q2 Y * q2,
      if g.Y_values.length ≤ 1 then g
      else { g with Y_accel := accelFind g.Y_values Y })
  else if g.Y_values.length ≤ 1 then
    (interp_eval g.log_q2_values g.F_dist (Real.log q2),
      { g with q2_accel := accelFind g.log_q2_values (Real.log q2) })
  else
    (interp2d_eval g.log_q2_values g.Y_values g.F_dist (Real.log q2) Y,
      { g with
          q2_accel := accelFind g.log_q2_values (Real.log q2),
          Y_accel := accelFind g.Y_values Y })

end APGD

/-- A concrete grid transform state with a degenerate scale axis, used to
instantiate the theorems with hypotheses at specific inputs. -/
noncomputable def apgdEx : APGD :=
  ⟨1, 100, 0, 0, [0, 1, 2], [0], [5], [7], [10, 20, 30], 0, 0⟩

/-- The dipole distribution of FixedSaturationMVGluonDistribution.
Modelled from the spec and from the documentation comment in gluondist.h
lines 271 to 276, which gives the closed form
exp (-(r2 Qs02) ^ gammaMV ln (e + 1 / (LambdaMV r)) / 4) and states that
the parameter Y is not used; the body is in the missing gluondist.cpp. -/
noncomputable def fmvS2 (LambdaMV gammaMV Qs02 r2 Y : ℝ) : ℝ :=
  Real.exp (-(r2 * Qs02) ^ gammaMV *
    Real.log (Real.exp 1 + 1 / (LambdaMV * Real.sqrt r2)) / 4)

/-- A GSL numerical error.  The handler gsl_error_throw installed in
oneloopcalc.cpp lines 775 to 777 turns every GSL error into a thrown
GSLException, so a GSL error is modelled as the error branch of Except. -/
inductive GslErr where
  | maxSubdivisions
  | edom
deriving DecidableEq

/-- Modelled from the spec: one adaptive quadrature call made by the
setup of the missing gluondist.cpp, with the configured
subinterval_limit.  The integrand for a grid point has some subdivision
demand; if it exceeds the limit the routine signals the GSL error, which
the installed handler turns into an exception, otherwise the integral
value is produced. -/
def qags (subinterval_limit demand : ℕ) (value : ℝ) : Except GslErr ℝ :=
  if subinterval_limit < demand then Except.error GslErr.maxSubdivisions
  else Except.ok value

/-- Modelled from the spec: the grid construction loop of setup in the
missing gluondist.cpp (spec section 4.3 step 3).  Every grid point is
integrated with the same subinterval_limit; the first error aborts the
construction and propagates, and there is no code path that retries a
point with different parameters. -/
def setupGrid (lim : ℕ) (demand : ℝ × ℝ → ℕ) (value : ℝ × ℝ → ℝ) :
    List (ℝ × ℝ) → Except GslErr (List ℝ)
  | [] => Except.ok []
  | p :: ps =>
    match qags lim (demand p) (value p) with
    | Except.error e => Except.error e
    | Except.ok v =>
      match setupGrid lim demand value ps with
      | Except.error e => Except.error e
      | Except.ok vs => Except.ok (v :: vs)

/-- A concrete subdivision demand function used to instantiate the
theorems with hypotheses: each grid point demands five subdivisions. -/
def demandEx : ℝ × ℝ → ℕ := fun _ => 5

/-- The state of a FileDataGluonDistribution after construction, with the
fields of gluondist.h lines 309 to 321: the logarithmic position and
momentum axes, the scale axes for each space, and the two value tables
read from the data files. -/
structure FileDataGluonDistribution where
  r2_values : List ℝ
  Y_values_rspace : List ℝ
  q2_values : List ℝ
  Y_values_pspace : List ℝ
  S_dist : List ℝ
  F_dist : List ℝ

namespace FileDataGluonDistribution

/-- Modelled from the spec: the body of FileDataGluonDistribution::F is
in the missing gluondist.cpp.  The stored momentum grid is interpolated
at (ln q2, Y); an argument outside the covered range makes the GSL
interpolation routine signal its domain error, which the handler
installed in oneloopcalc.cpp turns into an exception, so an out of range
query is the error branch and is never replaced by an extrapolated or
clamped number (spec sections 4.5 and 7). -/
noncomputable def F (fd : FileDataGluonDistribution) (q2 Y : ℝ) :
    Except GslErr ℝ :=
  if Real.log q2 < fd.q2_values.headD 0 ∨
      (fd.q2_values.getLast?).getD 0 < Real.log q2 then
    Except.error GslErr.edom
  else if fd.Y_values_pspace.length ≤ 1 then
    Except.ok (interp_eval fd.q2_values fd.F_dist (Real.log q2))
  else if Y < fd.Y_values_pspace.headD 0 ∨
      (fd.Y_values_pspace.getLast?).getD 0 < Y then
    Except.error GslErr.edom
  else
    Except.ok (interp2d_eval fd.q2_values fd.Y_values_pspace fd.F_dist
      (Real.log q2) Y)

/-- Modelled from the spec: the body of FileDataGluonDistribution::S2 is
in the missing gluondist.cpp; same shape as F but on the position space
grid in (ln r2, Y). -/
noncomputable def S2 (fd : FileDataGluonDistribution) (r2 Y : ℝ) :
    Except GslErr ℝ :=
  if Real.log r2 < fd.r2_values.headD 0 ∨
      (fd.r2_values.getLast?).getD 0 < Real.log r2 then
    Except.error GslErr.edom
  else if fd.Y_values_rspace.length ≤ 1 then
    Except.ok (interp_eval fd.r2_values fd.S_dist (Real.log r2))
  else if Y < fd.Y_values_rspace.headD 0 ∨
      (fd.Y_values_rspace.getLast?).getD 0 < Y then
    Except.error GslErr.edom
  else
    Except.ok (interp2d_eval fd.r2_values fd.Y_values_rspace fd.S_dist
      (Real.log r2) Y)

end FileDataGluonDistribution

/-- A concrete file backed distribution whose tabulated axes cover the
ln range 0 to 1 in each transform variable and the range 0 to 1 in Y on
both grids, used to instantiate the theorems with hypotheses. -/
noncomputable def fdEx : FileDataGluonDistribution :=
  ⟨[0, 1], [0, 1], [0, 1], [0, 1], [4, 4, 4, 4], [6, 6, 6, 6]⟩

/-- A gluon distribution as seen through the interface of gluondist.h
lines 56 to 87: the three query functions and a name. -/
structure GDist where
  S2 : ℝ → ℝ → ℝ
  S4 : ℝ → ℝ → ℝ → ℝ → ℝ
  F : ℝ → ℝ → ℝ
  name : String

/-- One record appended to the trace sink by the tracing wrapper: the
call kind, the arguments and the returned value. -/
inductive TraceRecord where
  | s2 (r2 Y val : ℝ)
  | s4 (r2 s2 t2 Y val : ℝ)
  | f (q2 Y val : ℝ)

/-- Modelled from the spec: the body of
GluonDistributionTraceWrapper::S2 is in the missing gluondist.cpp.  The
call is forwarded unchanged to the wrapped distribution and a record of
the arguments and the returned value is appended to the trace sink,
modelled as the list of records written so far. -/
def traceS2 (g : GDist) (tr : List TraceRecord) (r2 Y : ℝ) :
    ℝ × List TraceRecord :=
  (g.S2 r2 Y, tr ++ [TraceRecord.s2 r2 Y (g.S2 r2 Y)])

/-- Modelled from the spec: the wrapped S4 forwarded with a record
appended to the trace sink. -/
def traceS4 (g : GDist) (tr : List TraceRecord) (r2 s2 t2 Y : ℝ) :
    ℝ × List TraceRecord :=
  (g.S4 r2 s2 t2 Y, tr ++ [TraceRecord.s4 r2 s2 t2 Y (g.S4 r2 s2 t2 Y)])

/-- Modelled from the spec: the wrapped F forwarded with a record
appended to the trace sink. -/
def traceF (g : GDist) (tr : List TraceRecord) (q2 Y : ℝ) :
    ℝ × List TraceRecord :=
  (g.F q2 Y, tr ++ [TraceRecord.f q2 Y (g.F q2 Y)])

/-- The result storage of ResultsCalculator, oneloopcalc.cpp lines 180
to 188: the validity flags and the arrays of real parts, imaginary parts
and error bounds, all of the same length. -/
structure RCState where
  valid : List Bool
  re : List ℝ
  im : List ℝ
  err : List ℝ

/-- The body of ResultsCalculator::integrate_hard_factor, oneloopcalc.cpp
lines 531 to 549, after the integration returned: the three values are
stored at the given index and the index is marked valid. -/
def storeResult (st : RCState) (idx : ℕ) (v : ℝ × ℝ × ℝ) : RCState :=
  ⟨st.valid.set idx true, st.re.set idx v.1, st.im.set idx v.2.1,
    st.err.set idx v.2.2⟩

/-- The inner loop of ResultsCalculator::calculate, oneloopcalc.cpp lines
503 to 526, for one context: the integrations of the context are run in
order over their result indices; a successful integration stores its
values and marks the index valid; an exception thrown by an integration
(modelled by the error branch of f) aborts the remaining integrations of
this context, leaving the state as it was at that point. -/
def calcContext (f : ℕ → Except String (ℝ × ℝ × ℝ)) :
    RCState → List ℕ → RCState
  | st, [] => st
  | st, idx :: rest =>
    match f idx with
    | Except.ok v => calcContext f (storeResult st idx v) rest
    | Except.error _ => st

/-- The outer loop of ResultsCalculator::calculate, oneloopcalc.cpp lines
498 to 529: each context is processed in turn with its own try block, so
a failure in one context does not stop the iteration over the others. -/
def calculate (f : ℕ → Except String (ℝ × ℝ × ℝ)) (st : RCState)
    (cs : List (List ℕ)) : RCState :=
  cs.foldl (calcContext f) st

/-- ResultsCalculator::result, oneloopcalc.cpp lines 484 to 496: a valid
index yields its stored values; an invalid index throws without writing
to the output variables, modelled by the error branch carrying no
values. -/
def rcResult (st : RCState) (idx : ℕ) : Except String (ℝ × ℝ × ℝ) :=
  if st.valid.getD idx false then
    Except.ok (st.re.getD idx 0, st.im.getD idx 0, st.err.getD idx 0)
  else Except.error "Invalid results"

/-- A concrete per index integration outcome: index 0 succeeds with the
values (1, 2, 3) and every other index throws. -/
noncomputable def rcIntegrationEx : ℕ → Except String (ℝ × ℝ × ℝ) :=
  fun n => if n = 0 then Except.ok (1, 2, 3) else Except.error "GSL error"

/-- A concrete result storage with two entries, none valid yet. -/
def rcStateEx : RCState := ⟨[false, false], [0, 0], [0, 0], [0, 0]⟩

/-- The fields of Context (configuration/context.h lines 153 to 257) that
enter check_kinematics: the fit constants, the kinematic variables, the
CSS regularization settings and the three precomputed values. -/
structure Context where
  x0 : ℝ
  mass_number : ℝ
  centrality : ℝ
  lambda : ℝ
  pT2 : ℝ
  sqs : ℝ
  Y : ℝ
  css_r_regularization : Bool
  css_r2_max : ℝ
  Q02x0lambda : ℝ
  tau : ℝ
  tauhat : ℝ

namespace Context

/-- Context::compute_Q02x0lambda, configuration/context.h lines 259 to
261: centrality * mass_number ^ (1/3) * x0 ^ lambda. -/
noncomputable def compute_Q02x0lambda (centrality mass_number x0 lambda : ℝ) : ℝ :=
  centrality * mass_number ^ ((1 : ℝ) / 3) * x0 ^ lambda

/-- Context::compute_tau, configuration/context.h lines 262 to 264:
pT / sqs * exp Y. -/
noncomputable def compute_tau (pT sqs Y : ℝ) : ℝ := pT / sqs * Real.exp Y

/-- Context::compute_tauhat, configuration/context.h lines 265 to 267:
pT / sqs * (exp Y + exp (-Y)). -/
noncomputable def compute_tauhat (pT sqs Y : ℝ) : ℝ :=
  pT / sqs * (Real.exp Y + Real.exp (-Y))

/-- The failure modes of Context::check_kinematics: the two exception
classes thrown in configuration/context.h lines 269 to 288, and the
assert on css_r2_max, which aborts rather than throwing and is modelled
as a third failure kind. -/
inductive KinFailure where
  | invalidProperty (property : String)
  | invalidKinematics (message : String)
  | assertionFailure

/-- Context::check_kinematics, configuration/context.h lines 269 to 288,
check by check in source order: each precomputed value is compared with
the value recomputed from the other fields, then tau and tauhat are
required to be at most 1, and finally, when css_r_regularization is set,
the assert requires css_r2_max to be positive.  The method is declared
const and reads the fields only, which the embedding reflects by being a
pure function of the Context. -/
noncomputable def check_kinematics (ctx : Context) : Except KinFailure Unit :=
  if compute_Q02x0lambda ctx.centrality ctx.mass_number ctx.x0 ctx.lambda ≠
      ctx.Q02x0lambda then
    Except.error (KinFailure.invalidProperty "Q02x0lambda")
  else if compute_tau (Real.sqrt ctx.pT2) ctx.sqs ctx.Y ≠ ctx.tau then
    Except.error (KinFailure.invalidProperty "tau")
  else if compute_tauhat (Real.sqrt ctx.pT2) ctx.sqs ctx.Y ≠ ctx.tauhat then
    Except.error (KinFailure.invalidProperty "tauhat")
  else if 1 < ctx.tau then
    Except.error (KinFailure.invalidKinematics "tau > 1: empty phase space")
  else if 1 < ctx.tauhat then
    Except.error (KinFailure.invalidKinematics "tauhat > 1: empty phase space")
  else if ctx.css_r_regularization ∧ ¬ 0 < ctx.css_r2_max then
    Except.error KinFailure.assertionFailure
  else
    Except.ok ()

end Context

/-- A concrete Context whose stored precomputed values match the
recomputed ones and whose kinematics are in range: both tau values are
zero because pT2 is zero. -/
noncomputable def ctxEx : Context :=
  ⟨1, 1, 2, 1, 0, 1, 0, false, 0, 2, 0, 0⟩

/-- Claim C5: for every r2, s2, t2, Y the quadrupole distribution
factorizes into a product of two dipole values, S4 r2 s2 t2 Y =
S2 s2 Y * S2 t2 Y, both for the closed form GBW model and for the default
S4 of AbstractPositionGluonDistribution, and in both cases the result is
independent of the r2 argument. -/
theorem gbw_and_default_S4_factorize (sat : SaturationScale) (S2 : ℝ → ℝ → ℝ)
    (r2 r2x s2 t2 Y : ℝ) :
    gbwS4 sat r2 s2 t2 Y = gbwS2 sat s2 Y * gbwS2 sat t2 Y ∧
    gbwS4 sat r2 s2 t2 Y = gbwS4 sat r2x s2 t2 Y ∧
    apgdS4 S2 r2 s2 t2 Y = S2 s2 Y * S2 t2 Y ∧
    apgdS4 S2 r2 s2 t2 Y = apgdS4 S2 r2x s2 t2 Y :=
  ⟨rfl, rfl, rfl, rfl⟩

/-- Claim C6: for every SaturationScale, xY and Yx are mutual inverses on
the valid domain (Yx (xY Y) = Y for every Y, and xY (Yx x) = x for every
x in (0,1]), and the two routes to the scale agree exactly:
Qs2Y Y = Qs2x (xY Y). -/
theorem satscale_conversions_inverse (s : SaturationScale) (Y x : ℝ)
    (hx0 : 0 < x) (hx1 : x ≤ 1) :
    s.Yx (s.xY Y) = Y ∧ s.xY (s.Yx x) = x ∧ s.Qs2Y Y = s.Qs2x (s.xY Y) := by
  refine ⟨?_, ?_, rfl⟩
  · simp [SaturationScale.Yx, SaturationScale.xY]
  · simp [SaturationScale.Yx, SaturationScale.xY, Real.exp_log hx0]

/-- Claim C1: for every query F q2 Y on a grid transform distribution
with q2 < q2min, the returned value is leading Y + subleading Y * q2
with the series coefficients interpolated along the scale axis, and the
two dimensional grid is never consulted: the value is unchanged when the
grid table F_dist is replaced by any other table. -/
theorem apgd_F_series_below_q2min (g : APGD) (q2 Y : ℝ) (h : q2 < g.q2min) :
    (g.F q2 Y).1 =
      g.interp_coef g.F_dist_leading_q2 Y +
        g.interp_coef g.F_dist_subleading_q2 Y * q2 ∧
    ∀ fd : List ℝ, (APGD.F { g with F_dist := fd } q2 Y).1 = (g.F q2 Y).1 := by
  constructor
  · simp [APGD.F, if_pos h]
  · intro fd
    simp [APGD.F, APGD.interp_coef, if_pos h]

/-- Witness for claim C1 at the concrete state apgdEx and input
q2 = 1/2, Y = 0: the hypothesis 1/2 < q2min holds and the value is the
series value 5 + 7 * (1/2). -/
theorem apgd_F_series_below_q2min_witness :
    (1 / 2 : ℝ) < apgdEx.q2min ∧ (apgdEx.F (1 / 2) 0).1 = 5 + 7 * (1 / 2) := by
  have h : (1 / 2 : ℝ) < apgdEx.q2min := by norm_num [apgdEx]
  refine ⟨h, ?_⟩
  have hmain := apgd_F_series_below_q2min apgdEx (1 / 2) 0 h
  rw [hmain.1]
  norm_num [APGD.interp_coef, apgdEx]

/-- Counterexample for claim C7 as stated: a query does mutate the
interpolation lookup state.  At the concrete state apgdEx, the query
F (exp (3/2)) 0 takes the grid branch and stores interval index 1 in the
q2 accelerator cache, which held 0, so the state after the query differs
from the state before it. -/
theorem apgd_F_mutates_accel_counterexample :
    (apgdEx.F (Real.exp (3 / 2)) 0).2 ≠ apgdEx := by
  have hq : ¬ Real.exp (3 / 2) < apgdEx.q2min := by
    have h1 : (1 : ℝ) ≤ Real.exp (3 / 2) := Real.one_le_exp (by norm_num)
    simp only [apgdEx]
    exact not_lt.mpr h1
  have hfind : accelFind [0, 1, 2] ((3 : ℝ) / 2) = 1 := by
    rw [accelFind]
    rw [if_neg (by norm_num)]
    rw [accelFind]
    rw [if_pos (by norm_num)]
  have hcache : (apgdEx.F (Real.exp (3 / 2)) 0).2.q2_accel = 1 := by
    rw [APGD.F]
    rw [if_neg hq]
    rw [if_pos (by norm_num [apgdEx])]
    simp only [apgdEx, Real.log_exp]
    exact hfind
  intro heq
  rw [heq] at hcache
  simp [apgdEx] at hcache

/-- Claim C7, amended: a query F leaves every field of the distribution
unchanged except the interpolation accelerator caches: the boundaries,
the axis arrays, the series coefficient tables and the value grid are
never mutated by a query; only q2_accel and Y_accel, the last lookup
position caches, may be updated. -/
theorem apgd_F_preserves_all_but_accel (g : APGD) (q2 Y : ℝ) :
    ((g.F q2 Y).2.q2min = g.q2min ∧ (g.F q2 Y).2.q2max = g.q2max ∧
     (g.F q2 Y).2.Ymin = g.Ymin ∧ (g.F q2 Y).2.Ymax = g.Ymax) ∧
    (g.F q2 Y).2.log_q2_values = g.log_q2_values ∧
    (g.F q2 Y).2.Y_values = g.Y_values ∧
    (g.F q2 Y).2.F_dist_leading_q2 = g.F_dist_leading_q2 ∧
    (g.F q2 Y).2.F_dist_subleading_q2 = g.F_dist_subleading_q2 ∧
    (g.F q2 Y).2.F_dist = g.F_dist := by
  rw [APGD.F]
  split_ifs <;> simp

/-- Claim C8: the fixed scale variant does not depend on the Y argument:
FixedSaturationMVGluonDistribution::S2 satisfies S2 r2 Y1 = S2 r2 Y2 for
any Y1, Y2; and a grid transform distribution whose scale axis was built
with Ymin = Ymax (a single axis value) satisfies F q2 Y1 = F q2 Y2 for
every q2, with the grid region served by the one dimensional
interpolation path in ln q2 alone. -/
theorem fixed_scale_ignores_Y (LambdaMV gammaMV Qs02 r2 : ℝ)
    (g : APGD) (n : ℕ) (y0 : ℝ)
    (hY : g.Y_values = APGD.mkYvalues n y0 y0) (q2 Y1 Y2 : ℝ) :
    fmvS2 LambdaMV gammaMV Qs02 r2 Y1 = fmvS2 LambdaMV gammaMV Qs02 r2 Y2 ∧
    (g.F q2 Y1).1 = (g.F q2 Y2).1 ∧
    (¬ q2 < g.q2min →
      (g.F q2 Y1).1 = interp_eval g.log_q2_values g.F_dist (Real.log q2)) := by
  have hY1 : g.Y_values = [y0] := by
    rw [hY, APGD.mkYvalues, if_pos rfl]
  have hlen : g.Y_values.length ≤ 1 := by rw [hY1]; simp
  refine ⟨rfl, ?_, ?_⟩
  · by_cases h : q2 < g.q2min <;>
      simp [APGD.F, APGD.interp_coef, hlen, h]
  · intro h
    simp [APGD.F, hlen, h]

/-- Witness for claim C8 at the concrete state apgdEx, whose scale axis
equals mkYvalues 3 0 0 = [0]: queries at Y = 7 and Y = 9 agree both below
q2min (q2 = 1/2) and in the grid region (q2 = 4). -/
theorem fixed_scale_ignores_Y_witness :
    apgdEx.Y_values = APGD.mkYvalues 3 0 0 ∧
    (apgdEx.F (1 / 2) 7).1 = (apgdEx.F (1 / 2) 9).1 ∧
    (apgdEx.F 4 7).1 = (apgdEx.F 4 9).1 := by
  have hY : apgdEx.Y_values = APGD.mkYvalues 3 0 0 := by
    rw [APGD.mkYvalues, if_pos rfl]
    simp [apgdEx]
  exact ⟨hY, (fixed_scale_ignores_Y 1 1 1 1 apgdEx 3 0 hY (1 / 2) 7 9).2.1,
    (fixed_scale_ignores_Y 1 1 1 1 apgdEx 3 0 hY 4 7 9).2.1⟩

/-- Claim C2: if the adaptive quadrature for any grid point exceeds the
configured subinterval_limit, grid construction fails with an error that
propagates to the caller (with the same limit, so no automatic retry can
turn the failure into a success); and a construction that returns
successfully holds the integral value of every grid point, never a
silently truncated subset. -/
theorem setup_propagates_quadrature_error (lim : ℕ) (demand : ℝ × ℝ → ℕ)
    (value : ℝ × ℝ → ℝ) (points : List (ℝ × ℝ)) :
    ((∃ p ∈ points, lim < demand p) →
      ∃ e, setupGrid lim demand value points = Except.error e) ∧
    (∀ vs, setupGrid lim demand value points = Except.ok vs →
      vs = points.map value) := by
  induction points with
  | nil =>
    constructor
    · rintro ⟨p, hp, -⟩
      exact absurd hp (List.not_mem_nil p)
    · intro vs hvs
      simp only [setupGrid] at hvs
      cases hvs
      simp
  | cons p ps ih =>
    constructor
    · rintro ⟨q, hq, hdem⟩
      rcases List.mem_cons.mp hq with hq | hq
      · subst hq
        refine ⟨GslErr.maxSubdivisions, ?_⟩
        simp only [setupGrid, qags, if_pos hdem]
      · rcases ih.1 ⟨q, hq, hdem⟩ with ⟨e, he⟩
        simp only [setupGrid, he]
        cases hc : qags lim (demand p) (value p) with
        | error e2 => exact ⟨e2, rfl⟩
        | ok v => exact ⟨e, rfl⟩
    · intro vs hvs
      simp only [setupGrid] at hvs
      cases hc : qags lim (demand p) (value p) with
      | error e2 => rw [hc] at hvs; cases hvs
      | ok v =>
        rw [hc] at hvs
        cases hr : setupGrid lim demand value ps with
        | error e2 => rw [hr] at hvs; cases hvs
        | ok ws =>
          rw [hr] at hvs
          cases hvs
          have hv : value p = v := by
            simp only [qags] at hc
            split_ifs at hc
            cases hc
            rfl
          rw [List.map_cons, hv, ih.2 ws hr]

/-- Witness for claim C2: with subinterval_limit 3 and a single grid
point that demands 5 subdivisions, the hypothesis holds and the grid
construction returns an error. -/
theorem setup_propagates_quadrature_error_witness :
    (∃ p ∈ [((1 : ℝ), (2 : ℝ))], 3 < demandEx p) ∧
    ∃ e, setupGrid 3 demandEx (fun _ => 7) [((1 : ℝ), (2 : ℝ))] =
      Except.error e := by
  have h : ∃ p ∈ [((1 : ℝ), (2 : ℝ))], 3 < demandEx p :=
    ⟨(1, 2), by simp, by norm_num [demandEx]⟩
  exact ⟨h,
    (setup_propagates_quadrature_error 3 demandEx (fun _ => 7)
      [((1 : ℝ), (2 : ℝ))]).1 h⟩

/-- Claim C3: a query on a FileDataGluonDistribution whose argument lies
outside the range covered by the corresponding grid raises the domain
error rather than returning a number: F with ln q2 below the minimum or
above the maximum of the momentum axis, F with Y outside the covered
scale range when the momentum grid spans several scale values, and
likewise S2 with ln r2 or Y outside the position grid, all return the
error branch and are never equal to Except.ok of any value. -/
theorem filedata_out_of_range_errors (fd : FileDataGluonDistribution)
    (q2 r2 Y : ℝ) :
    (Real.log q2 < fd.q2_values.headD 0 ∨
        (fd.q2_values.getLast?).getD 0 < Real.log q2 →
      fd.F q2 Y = Except.error GslErr.edom ∧
        ∀ v, fd.F q2 Y ≠ Except.ok v) ∧
    (2 ≤ fd.Y_values_pspace.length →
      Y < fd.Y_values_pspace.headD 0 ∨
        (fd.Y_values_pspace.getLast?).getD 0 < Y →
      fd.F q2 Y = Except.error GslErr.edom ∧
        ∀ v, fd.F q2 Y ≠ Except.ok v) ∧
    (Real.log r2 < fd.r2_values.headD 0 ∨
        (fd.r2_values.getLast?).getD 0 < Real.log r2 →
      fd.S2 r2 Y = Except.error GslErr.edom ∧
        ∀ v, fd.S2 r2 Y ≠ Except.ok v) ∧
    (2 ≤ fd.Y_values_rspace.length →
      Y < fd.Y_values_rspace.headD 0 ∨
        (fd.Y_values_rspace.getLast?).getD 0 < Y →
      fd.S2 r2 Y = Except.error GslErr.edom ∧
        ∀ v, fd.S2 r2 Y ≠ Except.ok v) := by
  have herr : ∀ (r : Except GslErr ℝ), r = Except.error GslErr.edom →
      r = Except.error GslErr.edom ∧ ∀ v, r ≠ Except.ok v :=
    fun r hr => ⟨hr, fun v hv => by rw [hr] at hv; cases hv⟩
  refine ⟨fun hq => herr _ ?_, fun hdim hY => herr _ ?_,
    fun hr => herr _ ?_, fun hdim hY => herr _ ?_⟩
  · rw [FileDataGluonDistribution.F, if_pos hq]
  · rw [FileDataGluonDistribution.F]
    by_cases hq : Real.log q2 < fd.q2_values.headD 0 ∨
        (fd.q2_values.getLast?).getD 0 < Real.log q2
    · rw [if_pos hq]
    · rw [if_neg hq, if_neg (by omega), if_pos hY]
  · rw [FileDataGluonDistribution.S2, if_pos hr]
  · rw [FileDataGluonDistribution.S2]
    by_cases hr : Real.log r2 < fd.r2_values.headD 0 ∨
        (fd.r2_values.getLast?).getD 0 < Real.log r2
    · rw [if_pos hr]
    · rw [if_neg hr, if_neg (by omega), if_pos hY]

/-- Witness for claim C3 at the concrete distribution fdEx, whose grids
cover ln arguments from 0 to 1 and Y from 0 to 1: the below range query
q2 = exp (-1), the above range query q2 = exp 2, the out of range scale
query Y = 5 at the in range q2 = 1, and the matching position space
queries on S2, all return the domain error. -/
theorem filedata_out_of_range_errors_witness :
    (Real.log (Real.exp (-1)) < fdEx.q2_values.headD 0 ∧
      fdEx.F (Real.exp (-1)) 0 = Except.error GslErr.edom) ∧
    ((fdEx.q2_values.getLast?).getD 0 < Real.log (Real.exp 2) ∧
      fdEx.F (Real.exp 2) 0 = Except.error GslErr.edom) ∧
    (2 ≤ fdEx.Y_values_pspace.length ∧
      fdEx.F 1 5 = Except.error GslErr.edom) ∧
    (fdEx.S2 (Real.exp (-1)) 0 = Except.error GslErr.edom ∧
      fdEx.S2 (Real.exp 2) 0 = Except.error GslErr.edom ∧
      fdEx.S2 1 5 = Except.error GslErr.edom) := by
  have hbelow : Real.log (Real.exp (-1)) < fdEx.q2_values.headD 0 := by
    rw [Real.log_exp]
    norm_num [fdEx]
  have habove : (fdEx.q2_values.getLast?).getD 0 < Real.log (Real.exp 2) := by
    rw [Real.log_exp]
    norm_num [fdEx]
  have hrbelow : Real.log (Real.exp (-1)) < fdEx.r2_values.headD 0 := by
    rw [Real.log_exp]
    norm_num [fdEx]
  have hrabove : (fdEx.r2_values.getLast?).getD 0 < Real.log (Real.exp 2) := by
    rw [Real.log_exp]
    norm_num [fdEx]
  have hdimp : 2 ≤ fdEx.Y_values_pspace.length := by norm_num [fdEx]
  have hdimr : 2 ≤ fdEx.Y_values_rspace.length := by norm_num [fdEx]
  have hYp : (5 : ℝ) < fdEx.Y_values_pspace.headD 0 ∨
      (fdEx.Y_values_pspace.getLast?).getD 0 < 5 := by
    norm_num [fdEx]
  have hYr : (5 : ℝ) < fdEx.Y_values_rspace.headD 0 ∨
      (fdEx.Y_values_rspace.getLast?).getD 0 < 5 := by
    norm_num [fdEx]
  refine ⟨⟨hbelow, ?_⟩, ⟨habove, ?_⟩, ⟨hdimp, ?_⟩, ?_, ?_, ?_⟩
  · exact ((filedata_out_of_range_errors fdEx (Real.exp (-1)) 1 0).1
      (Or.inl hbelow)).1
  · exact ((filedata_out_of_range_errors fdEx (Real.exp 2) 1 0).1
      (Or.inr habove)).1
  · exact ((filedata_out_of_range_errors fdEx 1 1 5).2.1 hdimp hYp).1
  · exact ((filedata_out_of_range_errors fdEx 1 (Real.exp (-1)) 0).2.2.1
      (Or.inl hrbelow)).1
  · exact ((filedata_out_of_range_errors fdEx 1 (Real.exp 2) 0).2.2.1
      (Or.inr hrabove)).1
  · exact ((filedata_out_of_range_errors fdEx 1 1 5).2.2.2 hdimr hYr).1


/-- Witness for claim C6 at the concrete input Y = 0, x = 1. -/
theorem satscale_conversions_inverse_witness :
    satEx.Yx (satEx.xY 0) = 0 ∧ satEx.xY (satEx.Yx 1) = 1 ∧
    satEx.Qs2Y 0 = satEx.Qs2x (satEx.xY 0) :=
  satscale_conversions_inverse satEx 0 1 (by norm_num) (by norm_num)

/-- Claim C4: for every wrapped distribution and every argument tuple the
tracing wrapper returns from S2, S4 and F exactly the value the wrapped
distribution returns for the same arguments, whatever the current trace
contents; and calling S2, S4, F in sequence appends exactly three
records, in call order, holding those arguments and values. -/
theorem trace_wrapper_forwards_unchanged (g : GDist) (tr : List TraceRecord)
    (r2 s2 t2 q2 Y : ℝ) :
    (traceS2 g tr r2 Y).1 = g.S2 r2 Y ∧
    (traceS4 g tr r2 s2 t2 Y).1 = g.S4 r2 s2 t2 Y ∧
    (traceF g tr q2 Y).1 = g.F q2 Y ∧
    (traceF g (traceS4 g (traceS2 g tr r2 Y).2 r2 s2 t2 Y).2 q2 Y).2 =
      tr ++ [TraceRecord.s2 r2 Y (g.S2 r2 Y),
             TraceRecord.s4 r2 s2 t2 Y (g.S4 r2 s2 t2 Y),
             TraceRecord.f q2 Y (g.F q2 Y)] := by
  refine ⟨rfl, rfl, rfl, ?_⟩
  simp [traceS2, traceS4, traceF]

/-- Entries at positions a List.set did not touch keep their value. -/
theorem getD_set_ne {α : Type} (l : List α) (i j : ℕ) (a d : α)
    (h : i ≠ j) : (l.set i a).getD j d = l.getD j d := by
  induction l generalizing i j with
  | nil => simp
  | cons x xs ih =>
    cases i with
    | zero =>
      cases j with
      | zero => exact absurd rfl h
      | succ j => simp [List.getD]
    | succ i =>
      cases j with
      | zero => simp [List.getD]
      | succ j =>
        simp only [List.set, List.getD, List.getElem?_cons_succ]
        exact ih i j (fun he => h (by rw [he]))

/-- A calcContext run touches no entry outside its own index list. -/
theorem calcContext_preserves_other (f : ℕ → Except String (ℝ × ℝ × ℝ))
    (st : RCState) (idxs : List ℕ) (j : ℕ) (hj : j ∉ idxs) :
    (calcContext f st idxs).valid.getD j false = st.valid.getD j false ∧
    (calcContext f st idxs).re.getD j 0 = st.re.getD j 0 ∧
    (calcContext f st idxs).im.getD j 0 = st.im.getD j 0 ∧
    (calcContext f st idxs).err.getD j 0 = st.err.getD j 0 := by
  induction idxs generalizing st with
  | nil => exact ⟨rfl, rfl, rfl, rfl⟩
  | cons idx rest ih =>
    have hne : idx ≠ j := fun he => hj (by rw [he]; exact List.mem_cons_self j rest)
    have hrest : j ∉ rest := fun hr => hj (List.mem_cons_of_mem idx hr)
    rw [calcContext]
    cases f idx with
    | error e => exact ⟨rfl, rfl, rfl, rfl⟩
    | ok v =>
      have hs := ih (storeResult st idx v) hrest
      refine ⟨?_, ?_, ?_, ?_⟩
      · rw [hs.1]; exact getD_set_ne st.valid idx j true false hne
      · rw [hs.2.1]; exact getD_set_ne st.re idx j v.1 0 hne
      · rw [hs.2.2.1]; exact getD_set_ne st.im idx j v.2.1 0 hne
      · rw [hs.2.2.2]; exact getD_set_ne st.err idx j v.2.2 0 hne

/-- Claim C9: when an integration fails during calculate, results already
computed and marked valid for other contexts are untouched: the whole run
over any collection of contexts none of whose index lists contains j
leaves entry j exactly as it was.  An entry can only be marked valid by
a successful integration at its own index, so entries whose computation
did not complete stay invalid.  Reading an invalid entry through result
yields the error branch, which carries no values to the caller. -/
theorem results_survive_failed_context :
    (∀ (f : ℕ → Except String (ℝ × ℝ × ℝ)) (st : RCState)
        (cs : List (List ℕ)) (j : ℕ), (∀ ctx ∈ cs, j ∉ ctx) →
      (calculate f st cs).valid.getD j false = st.valid.getD j false ∧
      (calculate f st cs).re.getD j 0 = st.re.getD j 0 ∧
      (calculate f st cs).im.getD j 0 = st.im.getD j 0 ∧
      (calculate f st cs).err.getD j 0 = st.err.getD j 0) ∧
    (∀ (f : ℕ → Except String (ℝ × ℝ × ℝ)) (st : RCState)
        (idxs : List ℕ) (j : ℕ),
      (calcContext f st idxs).valid.getD j false = true →
      st.valid.getD j false = true ∨ ∃ v, f j = Except.ok v) ∧
    (∀ (st : RCState) (j : ℕ), st.valid.getD j false = false →
      rcResult st j = Except.error "Invalid results") := by
  refine ⟨?_, ?_, ?_⟩
  · intro f st cs j hj
    induction cs generalizing st with
    | nil => exact ⟨rfl, rfl, rfl, rfl⟩
    | cons c rest ih =>
      have hc : j ∉ c := hj c (List.mem_cons_self c rest)
      have hrest : ∀ ctx ∈ rest, j ∉ ctx :=
        fun ctx hctx => hj ctx (List.mem_cons_of_mem c hctx)
      have h1 := calcContext_preserves_other f st c j hc
      have h2 := ih (calcContext f st c) hrest
      rw [calculate] at h2 ⊢
      simp only [List.foldl_cons]
      exact ⟨h2.1.trans h1.1, h2.2.1.trans h1.2.1,
        h2.2.2.1.trans h1.2.2.1, h2.2.2.2.trans h1.2.2.2⟩
  · intro f st idxs j
    induction idxs generalizing st with
    | nil => intro h; exact Or.inl h
    | cons idx rest ih =>
      intro h
      rw [calcContext] at h
      cases hf : f idx with
      | error e => rw [hf] at h; exact Or.inl h
      | ok v =>
        rw [hf] at h
        rcases ih (storeResult st idx v) h with h2 | h2
        · by_cases he : idx = j
          · subst he
            exact Or.inr ⟨v, hf⟩
          · simp only [storeResult] at h2
            rw [getD_set_ne st.valid idx j true false he] at h2
            exact Or.inl h2
        · exact Or.inr h2
  · intro st j h
    rw [rcResult, h]
    simp

/-- Witness for claim C9 at a concrete run: after the first context
computed entry 0, running the second context, whose only integration
fails, leaves entry 0 of the state exactly as it was; and reading the
never computed entry 1 of the initial state yields the error branch. -/
theorem results_survive_failed_context_witness :
    (∀ ctx ∈ [[1]], 0 ∉ ctx) ∧
    ((calculate rcIntegrationEx (calculate rcIntegrationEx rcStateEx [[0]])
        [[1]]).valid.getD 0 false =
      (calculate rcIntegrationEx rcStateEx [[0]]).valid.getD 0 false ∧
     (calculate rcIntegrationEx (calculate rcIntegrationEx rcStateEx [[0]])
        [[1]]).re.getD 0 0 =
      (calculate rcIntegrationEx rcStateEx [[0]]).re.getD 0 0 ∧
     (calculate rcIntegrationEx (calculate rcIntegrationEx rcStateEx [[0]])
        [[1]]).im.getD 0 0 =
      (calculate rcIntegrationEx rcStateEx [[0]]).im.getD 0 0 ∧
     (calculate rcIntegrationEx (calculate rcIntegrationEx rcStateEx [[0]])
        [[1]]).err.getD 0 0 =
      (calculate rcIntegrationEx rcStateEx [[0]]).err.getD 0 0) ∧
    rcResult rcStateEx 1 = Except.error "Invalid results" := by
  have hj : ∀ ctx ∈ [[1]], 0 ∉ ctx := by decide
  exact ⟨hj,
    results_survive_failed_context.1 rcIntegrationEx
      (calculate rcIntegrationEx rcStateEx [[0]]) [[1]] 0 hj,
    results_survive_failed_context.2.2 rcStateEx 1 (by rfl)⟩

/-- Claim C10: for every Context whose stored Q02x0lambda, tau and tauhat
equal the values recomputed by the compute functions from its other
fields, and with css_r2_max positive whenever css_r_regularization is
set, check_kinematics throws an exception exactly when tau > 1 or
tauhat > 1, and returns silently otherwise; being a pure function of the
Context it modifies nothing. -/
theorem check_kinematics_iff_empty_phase_space (ctx : Context)
    (hQ : Context.compute_Q02x0lambda ctx.centrality ctx.mass_number ctx.x0
      ctx.lambda = ctx.Q02x0lambda)
    (ht : Context.compute_tau (Real.sqrt ctx.pT2) ctx.sqs ctx.Y = ctx.tau)
    (hth : Context.compute_tauhat (Real.sqrt ctx.pT2) ctx.sqs ctx.Y = ctx.tauhat)
    (hcss : ctx.css_r_regularization = true → 0 < ctx.css_r2_max) :
    ((1 < ctx.tau ∨ 1 < ctx.tauhat) →
      ∃ e, ctx.check_kinematics = Except.error e) ∧
    (¬ (1 < ctx.tau ∨ 1 < ctx.tauhat) → ctx.check_kinematics = Except.ok ()) := by
  have hbody : ctx.check_kinematics =
      if 1 < ctx.tau then
        Except.error
          (Context.KinFailure.invalidKinematics "tau > 1: empty phase space")
      else if 1 < ctx.tauhat then
        Except.error
          (Context.KinFailure.invalidKinematics "tauhat > 1: empty phase space")
      else Except.ok () := by
    rw [Context.check_kinematics]
    rw [if_neg (by rw [hQ]; exact fun h => h rfl)]
    rw [if_neg (by rw [ht]; exact fun h => h rfl)]
    rw [if_neg (by rw [hth]; exact fun h => h rfl)]
    by_cases h1 : 1 < ctx.tau
    · rw [if_pos h1, if_pos h1]
    · rw [if_neg h1, if_neg h1]
      by_cases h2 : 1 < ctx.tauhat
      · rw [if_pos h2, if_pos h2]
      · rw [if_neg h2, if_neg h2]
        rw [if_neg ?_]
        rintro ⟨hreg, hmax⟩
        exact hmax (hcss hreg)
  constructor
  · intro h
    rw [hbody]
    rcases h with h | h
    · exact ⟨_, by rw [if_pos h]⟩
    · by_cases h1 : 1 < ctx.tau
      · exact ⟨_, by rw [if_pos h1]⟩
      · exact ⟨_, by rw [if_neg h1, if_pos h]⟩
  · intro h
    push_neg at h
    rw [hbody, if_neg (not_lt.mpr h.1), if_neg (not_lt.mpr h.2)]

/-- Witness for claim C10 at the concrete Context ctxEx: the hypotheses
hold, tau and tauhat are not above 1, and check_kinematics returns
silently. -/
theorem check_kinematics_iff_empty_phase_space_witness :
    ¬ ((1 : ℝ) < ctxEx.tau ∨ (1 : ℝ) < ctxEx.tauhat) ∧
    ctxEx.check_kinematics = Except.ok () := by
  have hQ : Context.compute_Q02x0lambda ctxEx.centrality ctxEx.mass_number
      ctxEx.x0 ctxEx.lambda = ctxEx.Q02x0lambda := by
    simp [Context.compute_Q02x0lambda, ctxEx]
  have ht : Context.compute_tau (Real.sqrt ctxEx.pT2) ctxEx.sqs ctxEx.Y =
      ctxEx.tau := by
    simp [Context.compute_tau, ctxEx]
  have hth : Context.compute_tauhat (Real.sqrt ctxEx.pT2) ctxEx.sqs ctxEx.Y =
      ctxEx.tauhat := by
    simp [Context.compute_tauhat, ctxEx]
  have hcss : ctxEx.css_r_regularization = true → 0 < ctxEx.css_r2_max := by
    intro h
    simp [ctxEx] at h
  have hnot : ¬ ((1 : ℝ) < ctxEx.tau ∨ (1 : ℝ) < ctxEx.tauhat) := by
    norm_num [ctxEx]
  exact ⟨hnot,
    (check_kinematics_iff_empty_phase_space ctxEx hQ ht hth hcss).2 hnot⟩
